import Mathlib

/-
Verification of the numerical and rendering pipeline of
scripts/plot_abtc_btc.py over a shallow embedding in Lean 4.

Floating-point values are modelled by exact rationals, so every arithmetic
identity below is the idealized real-number semantics of the Python code.
Python lists become Lean lists; the CSV reader becomes an explicit function
from a header row and a list of parsed rows to an Except value.
-/

set_option maxHeartbeats 1000000

/-- The fixed asset identifiers, in iteration order (module constant ASSETS). -/
def ASSETS : List String := ["ABTC", "BTC"]

/-- Canvas width in pixels (render_svg local `width`). -/
def svg_width : ℕ := 1000

/-- Canvas height in pixels (render_svg local `height`). -/
def svg_height : ℕ := 620

/-- Left margin (render_svg local `margin_left`). -/
def margin_left : ℕ := 90

/-- Right margin (render_svg local `margin_right`). -/
def margin_right : ℕ := 110

/-- Top margin (render_svg local `margin_top`). -/
def margin_top : ℕ := 70

/-- Bottom margin (render_svg local `margin_bottom`). -/
def margin_bottom : ℕ := 80

/-- Plot width: width - margin_left - margin_right. -/
def plot_width : ℕ := svg_width - margin_left - margin_right

/-- Plot height: height - margin_top - margin_bottom. -/
def plot_height : ℕ := svg_height - margin_top - margin_bottom

/-- The ordered price data parsed from the CSV: a list of dates (kept as the
ISO strings produced by datetime.fromisoformat round-tripping) and one price
list per fixed asset, ABTC first then BTC (the dict insertion order). -/
structure PriceSeries where
  dates : List String
  abtc : List ℚ
  btc : List ℚ
deriving DecidableEq

/-- Python `min` over a list; Python raises on an empty list, every caller
in the script passes a non-empty list, so the empty case carries a junk 0
and all theorems assume non-emptiness. -/
def pymin : List ℚ → ℚ
  | [] => 0
  | x :: xs => xs.foldl min x

/-- Python `max` over a list (same convention as pymin for the empty list). -/
def pymax : List ℚ → ℚ
  | [] => 0
  | x :: xs => xs.foldl max x

/-- Sum of the index sequence 0..n-1 as a rational (`sum_x` in
compute_trendline). -/
def idx_sum (n : ℕ) : ℚ := ((List.range n).map (fun i : ℕ => (i : ℚ))).sum

/-- Sum of squared indices over 0..n-1 (`sum_xx` in compute_trendline). -/
def idx_sq_sum (n : ℕ) : ℚ := ((List.range n).map (fun i : ℕ => (i : ℚ) * (i : ℚ))).sum

/-- Sum of x*y over zip(range(n), values) (`sum_xy` in compute_trendline). -/
def idx_prod_sum (v : List ℚ) : ℚ :=
  (((List.range v.length).zip v).map (fun p => (p.1 : ℚ) * p.2)).sum

/-- The regression denominator `n * sum_xx - sum_x * sum_x`. -/
def trend_denom (v : List ℚ) : ℚ :=
  (v.length : ℚ) * idx_sq_sum v.length - idx_sum v.length * idx_sum v.length

/-- compute_trendline: least-squares line fitted against indices 0..n-1,
returned as the fitted value at each index. -/
def compute_trendline (v : List ℚ) : List ℚ :=
  if v.length = 0 then []
  else
    let n : ℚ := v.length
    let slope : ℚ :=
      if trend_denom v = 0 then 0
      else (n * idx_prod_sum v - idx_sum v.length * v.sum) / trend_denom v
    let intercept : ℚ := (v.sum - slope * idx_sum v.length) / n
    (List.range v.length).map (fun x : ℕ => slope * (x : ℚ) + intercept)

/-- compute_fluctuation: day-over-day percentage change; prev value 0 is
clamped to 0. -/
def compute_fluctuation (values : List ℚ) : List ℚ :=
  if values = [] then []
  else
    0 :: (values.zip values.tail).map
      (fun p => if p.1 = 0 then 0 else ((p.2 - p.1) / p.1) * 100)

/-- compute_relative_change: percentage change from the first value; a zero
baseline yields an all-zero list. -/
def compute_relative_change (values : List ℚ) : List ℚ :=
  if values = [] then []
  else
    let baseline := values.headD 0
    if baseline = 0 then values.map (fun _ => (0 : ℚ))
    else values.map (fun value => ((value - baseline) / baseline) * 100)

/-- _linspace: `count` evenly spaced values from start to stop inclusive. -/
def _linspace (start stop : ℚ) (count : ℕ) : List ℚ :=
  if count = 1 then [start]
  else
    let step := (stop - start) / ((count : ℚ) - 1)
    (List.range count).map (fun i => start + step * i)

/-- Round to the nearest integer, ties to even: the rounding used by
Python fixed-point string formatting, idealized to exact rationals. -/
def round_half_even (q : ℚ) : ℤ :=
  let f := Rat.floor q
  let r := q - f
  if r < 1 / 2 then f
  else if 1 / 2 < r then f + 1
  else if f % 2 = 0 then f else f + 1

/-- Left-pad a decimal string with zeros to the requested width. -/
def pad_zeros (s : String) (w : ℕ) : String :=
  String.mk (List.replicate (w - s.length) '0') ++ s

/-- Python f-string fixed-point formatting (x:.Df), no thousands grouping. -/
def format_fixed (q : ℚ) (decimals : ℕ) : String :=
  let scaled := round_half_even (q * (10 : ℚ) ^ decimals)
  let sign := if q < 0 then "-" else ""
  let a := scaled.natAbs
  if decimals = 0 then sign ++ toString (a / 10 ^ decimals)
  else
    sign ++ toString (a / 10 ^ decimals) ++ "." ++
      pad_zeros (toString (a % 10 ^ decimals)) decimals

/-- Insert a comma after every run of three digits; input and output are
reversed digit lists. -/
def comma_group_rev : ℕ → List Char → List Char
  | _, [] => []
  | k, c :: cs =>
    if k = 3 then ',' :: c :: comma_group_rev 1 cs
    else c :: comma_group_rev (k + 1) cs

/-- Python f-string fixed-point formatting with thousands grouping (x:,.Df). -/
def format_comma_fixed (q : ℚ) (decimals : ℕ) : String :=
  let scaled := round_half_even (q * (10 : ℚ) ^ decimals)
  let sign := if q < 0 then "-" else ""
  let a := scaled.natAbs
  let ip_str := String.mk ((comma_group_rev 0 (toString (a / 10 ^ decimals)).toList.reverse).reverse)
  if decimals = 0 then sign ++ ip_str
  else sign ++ ip_str ++ "." ++ pad_zeros (toString (a % 10 ^ decimals)) decimals

/-- _format_currency: dollar amount, no decimals at or beyond 1000 in
magnitude, two decimals otherwise. -/
def _format_currency (value : ℚ) : String :=
  if 1000 ≤ value ∨ value ≤ -1000 then "$" ++ format_comma_fixed value 0
  else "$" ++ format_comma_fixed value 2

/-- The formatter the claim describes: no-decimal format exactly when the
absolute value is strictly greater than 1000 (spec-side definition, for
comparison with _format_currency). -/
def currency_format_claim (value : ℚ) : String :=
  if 1000 < |value| then "$" ++ format_comma_fixed value 0
  else "$" ++ format_comma_fixed value 2

/-- _format_percent: one decimal and a trailing percent sign. -/
def _format_percent (value : ℚ) : String := format_fixed value 1 ++ "%"

/-- The two failure shapes of load_price_data.  The script raises ValueError
in both situations; the spec names the header failure FormatError and the
empty-body / bad-cell failure DataError, and the two raise sites are kept
apart here under those names. -/
inductive LoadError where
  | formatError (msg : String)
  | dataError (msg : String)
deriving DecidableEq

/-- One data row as the DictReader presents it: the date cell after ISO
parsing (none when datetime.fromisoformat would raise) and the remaining
cells after float conversion (none when float() would raise or the cell is
absent). -/
structure CsvRow where
  date : Option String
  cells : List (String × Option ℚ)
deriving DecidableEq

/-- Parse one data row: the date first, then each asset cell in ASSETS
order, failing like the corresponding Python conversion would. -/
def parse_row (row : CsvRow) : Except LoadError (String × ℚ × ℚ) := do
  let d ← match row.date with
    | some d => Except.ok d
    | none => Except.error (LoadError.dataError "invalid date value")
  let a ← match (row.cells.lookup "ABTC").join with
    | some q => Except.ok q
    | none => Except.error (LoadError.dataError "invalid ABTC value")
  let b ← match (row.cells.lookup "BTC").join with
    | some q => Except.ok q
    | none => Except.error (LoadError.dataError "invalid BTC value")
  Except.ok (d, a, b)

/-- load_price_data: check the header (date column first, then the missing
asset set), then read every row, then reject an empty body. -/
def load_price_data (fieldnames : List String) (rows : List CsvRow) :
    Except LoadError PriceSeries :=
  let missing := ASSETS.filter (fun a => ¬ a ∈ fieldnames)
  if ¬ "date" ∈ fieldnames then
    Except.error (LoadError.formatError "CSV must contain a \x27date\x27 column")
  else if missing ≠ [] then
    Except.error (LoadError.formatError
      ("CSV is missing expected asset columns: " ++ String.intercalate ", " missing))
  else do
    let parsed ← rows.mapM parse_row
    if parsed = [] then
      Except.error (LoadError.dataError "No rows found in price CSV")
    else
      Except.ok { dates := parsed.map (fun p => p.1),
                  abtc := parsed.map (fun p => p.2.1),
                  btc := parsed.map (fun p => p.2.2) }

/-- `rel_min` in render_svg: minimum over both assets' relative-change
series. -/
def rel_min (s : PriceSeries) : ℚ :=
  min (pymin (compute_relative_change s.abtc)) (pymin (compute_relative_change s.btc))

/-- `rel_max` in render_svg: maximum over both assets' relative-change
series. -/
def rel_max (s : PriceSeries) : ℚ :=
  max (pymax (compute_relative_change s.abtc)) (pymax (compute_relative_change s.btc))

/-- `rel_range` in render_svg, with the unit-width fallback when the
extremes coincide. -/
def rel_range (s : PriceSeries) : ℚ :=
  if rel_max s ≠ rel_min s then rel_max s - rel_min s else 1

/-- The left-scale coordinate mapping `price_y` of render_svg. -/
def price_y (s : PriceSeries) (value : ℚ) : ℚ :=
  (margin_top : ℚ) + (plot_height : ℚ) -
    (value - rel_min s) / rel_range s * (plot_height : ℚ)

/-- `fluct_min` after the accumulation loop of render_svg, before nudge and
padding: the accumulator starts at 0.0 and folds in each asset's minimum. -/
def raw_fluct_min (s : PriceSeries) : ℚ :=
  min (min 0 (pymin (compute_fluctuation s.abtc))) (pymin (compute_fluctuation s.btc))

/-- `fluct_max` after the accumulation loop of render_svg, before nudge and
padding. -/
def raw_fluct_max (s : PriceSeries) : ℚ :=
  max (max 0 (pymax (compute_fluctuation s.abtc))) (pymax (compute_fluctuation s.btc))

/-- The fluctuation-scale domain of render_svg: the raw extremes, then the
plus-minus-1 nudge when they coincide, then the 5 percent padding on each
side, in that statement order. -/
def fluct_bounds (s : PriceSeries) : ℚ × ℚ :=
  let fm0 := raw_fluct_min s
  let fM0 := raw_fluct_max s
  let fm1 := if fm0 = fM0 then fm0 - 1 else fm0
  let fM1 := if fm0 = fM0 then fM0 + 1 else fM0
  let padding := (fM1 - fm1) * (1 / 20)
  (fm1 - padding, fM1 + padding)

/-- The final `fluct_min` value of render_svg. -/
def fluct_lo (s : PriceSeries) : ℚ := (fluct_bounds s).1

/-- The final `fluct_max` value of render_svg. -/
def fluct_hi (s : PriceSeries) : ℚ := (fluct_bounds s).2

/-- The right-scale coordinate mapping `fluct_y` of render_svg. -/
def fluct_y (s : PriceSeries) (value : ℚ) : ℚ :=
  (margin_top : ℚ) + (plot_height : ℚ) -
    (value - fluct_lo s) / (fluct_hi s - fluct_lo s) * (plot_height : ℚ)

/-- Spec-side: the minimum-span nudge exactly as the spec words it. -/
def nudge_spec (p : ℚ × ℚ) : ℚ × ℚ :=
  if p.1 = p.2 then (p.1 - 1, p.2 + 1) else p

/-- Spec-side: extend each end of the range by 5 percent of its span. -/
def pad_spec (p : ℚ × ℚ) : ℚ × ℚ :=
  (p.1 - (p.2 - p.1) * (1 / 20), p.2 + (p.2 - p.1) * (1 / 20))

/-- Python range(0, stop, step) for step at least 1: the multiples of step
below stop, in increasing order. -/
def range_by (stop step : ℕ) : List ℕ :=
  (List.range stop).filter (fun i => i % step = 0)

/-- The date-label stride of render_svg: label_count = min(6, count) and
step = max(1, count // (label_count - 1)) when label_count exceeds 1. -/
def date_label_step (count : ℕ) : ℕ :=
  let label_count := min 6 count
  if 1 < label_count then max 1 (count / (label_count - 1)) else 1

/-- The indices at which render_svg emits x-axis date labels, in emission
order: the stride loop first, then the final index when the stride missed
it. -/
def x_label_indices (count : ℕ) : List ℕ :=
  let step := date_label_step count
  range_by count step ++ (if (count - 1) % step ≠ 0 then [count - 1] else [])

/-- Spec-side: the label-position set the claim describes, stride
max(1, n / 5) plus the final index. -/
def x_label_set_claim (n : ℕ) : Finset ℕ :=
  (Finset.range n).filter (fun i => i % max 1 (n / 5) = 0) ∪ {n - 1}

/-- Month number (two ISO digits) to the strftime %b abbreviation. -/
def month_abbrev : String → String
  | "01" => "Jan"
  | "02" => "Feb"
  | "03" => "Mar"
  | "04" => "Apr"
  | "05" => "May"
  | "06" => "Jun"
  | "07" => "Jul"
  | "08" => "Aug"
  | "09" => "Sep"
  | "10" => "Oct"
  | "11" => "Nov"
  | "12" => "Dec"
  | _ => ""

/-- strftime("%b %d") applied to an ISO yyyy-mm-dd date string. -/
def strftime_month_day (iso : String) : String :=
  let cs := iso.toList
  month_abbrev (String.mk [cs.getD 5 ' ', cs.getD 6 ' ']) ++ " " ++
    String.mk [cs.getD 8 ' ', cs.getD 9 ' ']

/-- Python repr of the float stroke widths interpolated into polyline
attributes; every call site passes a whole number (3.0 or 2.0). -/
def py_float_repr (q : ℚ) : String :=
  if q.den = 1 then toString q.num ++ ".0" else format_fixed q 2

/-- _svg_polyline: the polyline element string. -/
def _svg_polyline (points : List (ℚ × ℚ)) (color : String) (width : ℚ)
    (dash : Option String) : String :=
  let attrs := ["fill=\x27none\x27", "stroke=\x27" ++ color ++ "\x27",
    "stroke-width=\x27" ++ py_float_repr width ++ "\x27"]
  let attrs := match dash with
    | some d => attrs ++ ["stroke-dasharray=\x27" ++ d ++ "\x27"]
    | none => attrs
  let coord_str := String.intercalate " "
    (points.map (fun p => format_fixed p.1 2 ++ "," ++ format_fixed p.2 2))
  "<polyline " ++ String.intercalate " " attrs ++ " points=\x27" ++ coord_str ++ "\x27 />"

/-- _svg_text: the text element string. -/
def _svg_text (x y : ℚ) (text : String) (anchor : String) (size : ℕ) : String :=
  "<text x=\x27" ++ format_fixed x 2 ++ "\x27 y=\x27" ++ format_fixed y 2 ++
    "\x27 text-anchor=\x27" ++ anchor ++
    "\x27 font-family=\x27Arial, sans-serif\x27 font-size=\x27" ++ toString size ++
    "\x27 fill=\x27#333\x27>" ++ text ++ "</text>"

/-- The legend entries of render_svg, in order. -/
def legend_items : List (String × String × Option String) :=
  [("ABTC % Change", "#2ca02c", none),
   ("ABTC Trendline", "#98df8a", some "6 6"),
   ("ABTC Daily %", "#d62728", some "2 6"),
   ("BTC % Change", "#1f77b4", none),
   ("BTC Trendline", "#aec7e8", some "6 6"),
   ("BTC Daily %", "#ff7f0e", some "2 6")]

/-- The svg_parts list render_svg accumulates, in emission order. -/
def svg_parts (series : PriceSeries) : List String :=
  let count := series.dates.length
  let xs := _linspace (margin_left : ℚ) ((margin_left : ℚ) + (plot_width : ℚ)) count
  let bottom := margin_top + plot_height
  ["<?xml version=\x271.0\x27 encoding=\x27utf-8\x27?>",
   "<svg xmlns=\x27http://www.w3.org/2000/svg\x27 width=\x27" ++ toString svg_width ++
     "\x27 height=\x27" ++ toString svg_height ++ "\x27 viewBox=\x270 0 " ++
     toString svg_width ++ " " ++ toString svg_height ++ "\x27>",
   "<rect width=\x27100%\x27 height=\x27100%\x27 fill=\x27white\x27/>"]
  ++ (List.range 6).flatMap (fun i =>
      let value := rel_min series + (rel_range series / 5) * i
      let y := price_y series value
      ["<line x1=\x27" ++ toString margin_left ++ "\x27 y1=\x27" ++ format_fixed y 2 ++
         "\x27 x2=\x27" ++ toString (margin_left + plot_width) ++ "\x27 y2=\x27" ++
         format_fixed y 2 ++ "\x27 stroke=\x27#e0e0e0\x27 stroke-dasharray=\x274 6\x27 />",
       _svg_text ((margin_left : ℚ) - 10) (y + 5) (_format_percent value) "end" 14])
  ++ ["<line x1=\x27" ++ toString margin_left ++ "\x27 y1=\x27" ++ toString margin_top ++
        "\x27 x2=\x27" ++ toString margin_left ++ "\x27 y2=\x27" ++ toString bottom ++
        "\x27 stroke=\x27#333\x27 stroke-width=\x271.5\x27/>",
      "<line x1=\x27" ++ toString margin_left ++ "\x27 y1=\x27" ++ toString bottom ++
        "\x27 x2=\x27" ++ toString (margin_left + plot_width) ++ "\x27 y2=\x27" ++
        toString bottom ++ "\x27 stroke=\x27#333\x27 stroke-width=\x271.5\x27/>",
      "<line x1=\x27" ++ toString (margin_left + plot_width) ++ "\x27 y1=\x27" ++
        toString margin_top ++ "\x27 x2=\x27" ++ toString (margin_left + plot_width) ++
        "\x27 y2=\x27" ++ toString bottom ++ "\x27 stroke=\x27#333\x27 stroke-width=\x271.5\x27/>"]
  ++ (List.range 6).map (fun i =>
      let value := fluct_lo series + ((fluct_hi series - fluct_lo series) / 5) * i
      _svg_text ((margin_left : ℚ) + (plot_width : ℚ) + 10) (fluct_y series value + 5)
        (_format_percent value) "start" 14)
  ++ (x_label_indices count).map (fun idx =>
      _svg_text (xs.getD idx 0) ((bottom : ℚ) + 25)
        (strftime_month_day (series.dates.getD idx "")) "middle" 14)
  ++ [_svg_polyline (xs.zip ((compute_relative_change series.abtc).map (price_y series)))
        "#2ca02c" 3 none,
      _svg_polyline (xs.zip ((compute_trendline (compute_relative_change series.abtc)).map
        (price_y series))) "#98df8a" 2 (some "6 6"),
      _svg_polyline (xs.zip ((compute_relative_change series.btc).map (price_y series)))
        "#1f77b4" 3 none,
      _svg_polyline (xs.zip ((compute_trendline (compute_relative_change series.btc)).map
        (price_y series))) "#aec7e8" 2 (some "6 6")]
  ++ [_svg_polyline (xs.zip ((compute_fluctuation series.abtc).map (fluct_y series)))
        "#d62728" 2 (some "2 6"),
      _svg_polyline (xs.zip ((compute_fluctuation series.btc).map (fluct_y series)))
        "#ff7f0e" 2 (some "2 6")]
  ++ [_svg_text ((svg_width : ℚ) / 2) ((margin_top : ℚ) - 25)
        "ABTC vs BTC % Change & Daily Fluctuations" "middle" 22,
      _svg_text ((svg_width : ℚ) / 2) ((svg_height : ℚ) - 25) "Date" "middle" 16,
      _svg_text ((margin_left : ℚ) - 60) ((margin_top : ℚ) - 30) "% Change" "middle" 16,
      _svg_text ((svg_width : ℚ) - (margin_right : ℚ) / 2) ((margin_top : ℚ) - 30)
        "Daily Change" "middle" 16]
  ++ legend_items.enum.flatMap (fun p =>
      let y : ℚ := ((margin_top : ℚ) + 20) + p.1 * 22
      ["<line x1=\x27" ++ toString (margin_left + 20) ++ "\x27 y1=\x27" ++
         format_fixed y 2 ++ "\x27 x2=\x27" ++ toString (margin_left + 20 + 28) ++
         "\x27 y2=\x27" ++ format_fixed y 2 ++ "\x27 stroke=\x27" ++ p.2.2.1 ++
         "\x27 stroke-width=\x273\x27" ++
         (match p.2.2.2 with
          | some d => " stroke-dasharray=\x27" ++ d ++ "\x27"
          | none => "") ++ "/>",
       _svg_text ((margin_left : ℚ) + 20 + 40) (y + 5) p.2.1 "start" 14])
  ++ ["</svg>"]

/-- render_svg: the serialized document text written to the output path,
the parts joined by newlines. -/
def render_svg (series : PriceSeries) : String :=
  String.intercalate "\n" (svg_parts series)

/-- Spec-side trendline: the OLS fitted values exactly as the claim words
them, with slope 0 and the mean as intercept when the denominator
n * sum(x^2) - sum(x)^2 vanishes. -/
def trendline_spec (v : List ℚ) : List ℚ :=
  if v.length = 0 then []
  else
    let n : ℚ := v.length
    let Sx := idx_sum v.length
    let Sy := v.sum
    let Sxx := idx_sq_sum v.length
    let Sxy := idx_prod_sum v
    if n * Sxx - Sx * Sx = 0 then
      (List.range v.length).map (fun i : ℕ => (0 : ℚ) * (i : ℚ) + Sy / n)
    else
      let slope := (n * Sxy - Sx * Sy) / (n * Sxx - Sx * Sx)
      let intercept := (Sy - slope * Sx) / n
      (List.range v.length).map (fun i : ℕ => slope * (i : ℚ) + intercept)

theorem foldl_min_le_init (l : List ℚ) (a : ℚ) : l.foldl min a ≤ a := by
  induction l generalizing a with
  | nil => exact le_refl a
  | cons x xs ih => exact le_trans (ih (min a x)) (min_le_left a x)

theorem le_foldl_max_init (l : List ℚ) (a : ℚ) : a ≤ l.foldl max a := by
  induction l generalizing a with
  | nil => exact le_refl a
  | cons x xs ih => exact le_trans (le_max_left a x) (ih (max a x))

theorem pymin_le_pymax (l : List ℚ) (h : l ≠ []) : pymin l ≤ pymax l := by
  match l with
  | [] => exact absurd rfl h
  | x :: xs =>
    exact le_trans (foldl_min_le_init xs x) (le_foldl_max_init xs x)

theorem compute_fluctuation_cons (v : List ℚ) (h : v ≠ []) :
    compute_fluctuation v =
      0 :: (v.zip v.tail).map
        (fun p => if p.1 = 0 then 0 else ((p.2 - p.1) / p.1) * 100) := by
  rw [compute_fluctuation, if_neg h]

theorem pymin_fluct_nonpos (v : List ℚ) (h : v ≠ []) :
    pymin (compute_fluctuation v) ≤ 0 := by
  rw [compute_fluctuation_cons v h, pymin]
  exact foldl_min_le_init _ 0

theorem pymax_fluct_nonneg (v : List ℚ) (h : v ≠ []) :
    0 ≤ pymax (compute_fluctuation v) := by
  rw [compute_fluctuation_cons v h, pymax]
  exact le_foldl_max_init _ 0

theorem compute_relative_change_length (v : List ℚ) :
    (compute_relative_change v).length = v.length := by
  simp only [compute_relative_change]
  split_ifs with h1 h2 <;> simp [h1]

theorem compute_relative_change_ne_nil (v : List ℚ) (h : v ≠ []) :
    compute_relative_change v ≠ [] := by
  intro hc
  apply h
  have hl := compute_relative_change_length v
  rw [hc] at hl
  exact List.length_eq_zero.mp hl.symm

theorem rel_min_le_rel_max (s : PriceSeries) (hA : s.abtc ≠ []) (_hB : s.btc ≠ []) :
    rel_min s ≤ rel_max s := by
  have h1 := pymin_le_pymax _ (compute_relative_change_ne_nil s.abtc hA)
  calc rel_min s ≤ pymin (compute_relative_change s.abtc) := min_le_left _ _
    _ ≤ pymax (compute_relative_change s.abtc) := h1
    _ ≤ rel_max s := le_max_left _ _

theorem rel_range_pos (s : PriceSeries) (hA : s.abtc ≠ []) (hB : s.btc ≠ []) :
    0 < rel_range s := by
  rw [rel_range]
  by_cases h : rel_max s ≠ rel_min s
  · rw [if_pos h]
    have := rel_min_le_rel_max s hA hB
    have hlt : rel_min s < rel_max s := lt_of_le_of_ne this (Ne.symm h)
    linarith
  · rw [if_neg h]
    norm_num

theorem idx_sum_eq (n : ℕ) : idx_sum n = (n : ℚ) * ((n : ℚ) - 1) / 2 := by
  induction n with
  | zero => simp [idx_sum]
  | succ m ih =>
    unfold idx_sum at ih ⊢
    rw [List.range_succ, List.map_append, List.sum_append, ih]
    simp only [List.map_cons, List.map_nil, List.sum_cons, List.sum_nil]
    push_cast
    ring

theorem idx_sq_sum_eq (n : ℕ) :
    idx_sq_sum n = (n : ℚ) * ((n : ℚ) - 1) * (2 * (n : ℚ) - 1) / 6 := by
  induction n with
  | zero => simp [idx_sq_sum]
  | succ m ih =>
    unfold idx_sq_sum at ih ⊢
    rw [List.range_succ, List.map_append, List.sum_append, ih]
    simp only [List.map_cons, List.map_nil, List.sum_cons, List.sum_nil]
    push_cast
    ring

theorem trend_denom_closed (v : List ℚ) :
    trend_denom v =
      (v.length : ℚ) ^ 2 * ((v.length : ℚ) - 1) * ((v.length : ℚ) + 1) / 12 := by
  rw [trend_denom, idx_sum_eq, idx_sq_sum_eq]
  ring

theorem trend_denom_eq_zero_iff (v : List ℚ) :
    trend_denom v = 0 ↔ v.length ≤ 1 := by
  rw [trend_denom_closed, div_eq_zero_iff]
  constructor
  · rintro (h | h)
    · rcases mul_eq_zero.mp h with h' | h'
      · rcases mul_eq_zero.mp h' with h'' | h''
        · have hn : (v.length : ℚ) = 0 :=
            (pow_eq_zero_iff (by norm_num : (2 : ℕ) ≠ 0)).mp h''
          have : v.length = 0 := by exact_mod_cast hn
          omega
        · have hn : (v.length : ℚ) = 1 := by linarith
          have : v.length = 1 := by exact_mod_cast hn
          omega
      · have hge : (0 : ℚ) ≤ (v.length : ℚ) := by positivity
        linarith
    · norm_num at h
  · intro h
    rcases Nat.le_one_iff_eq_zero_or_eq_one.mp h with h' | h' <;> rw [h'] <;> norm_num

/-- C1: compute_trendline returns the OLS fitted values slope*i + intercept
over indices 0..n-1 with the standard least-squares coefficients, falls back
to slope 0 and the mean when the denominator vanishes, returns empty on
empty input, and the denominator vanishes exactly when n is at most 1. -/
theorem c1_trendline_matches_spec (v : List ℚ) :
    compute_trendline v = trendline_spec v ∧ (trend_denom v = 0 ↔ v.length ≤ 1) := by
  refine ⟨?_, trend_denom_eq_zero_iff v⟩
  simp only [compute_trendline, trendline_spec, trend_denom]
  split_ifs with h0 hd
  · rfl
  · apply List.map_congr_left
    intro i _
    ring
  · rfl

/-- C2: compute_fluctuation of a non-empty list keeps the length, starts
with 0, and at every later index i yields ((v[i] - v[i-1]) / v[i-1]) * 100
with a clamp to 0 when the previous value is exactly 0; in particular the
documented example evaluates to [0, 0, -50, -100, 0]. -/
theorem c2_fluctuation_spec :
    (∀ v : List ℚ, v ≠ [] →
      (compute_fluctuation v).length = v.length ∧
      (compute_fluctuation v).getD 0 0 = 0 ∧
      ∀ i : ℕ, 1 ≤ i → i < v.length →
        (compute_fluctuation v).getD i 0 =
          if v.getD (i - 1) 0 = 0 then 0
          else ((v.getD i 0 - v.getD (i - 1) 0) / v.getD (i - 1) 0) * 100) ∧
    compute_fluctuation [100, 100, 50, 0, 10] = [0, 0, -50, -100, 0] := by
  constructor
  · intro v hv
    have hpos : 0 < v.length := List.length_pos.mpr hv
    refine ⟨?_, ?_, ?_⟩
    · rw [compute_fluctuation_cons v hv]
      simp only [List.length_cons, List.length_map, List.length_zip, List.length_tail]
      omega
    · rw [compute_fluctuation_cons v hv]
      rfl
    · intro i h1 h2
      obtain ⟨j, rfl⟩ : ∃ j, i = j + 1 := ⟨i - 1, by omega⟩
      rw [compute_fluctuation_cons v hv, List.getD_cons_succ]
      have hjlen : j < ((v.zip v.tail).map
          (fun p => if p.1 = 0 then 0 else ((p.2 - p.1) / p.1) * 100)).length := by
        simp only [List.length_map, List.length_zip, List.length_tail]
        omega
      have hjv : j < v.length := by omega
      rw [List.getD_eq_getElem _ _ hjlen, List.getElem_map, List.getElem_zip,
        List.getElem_tail]
      have e1 : v.getD (j + 1 - 1) 0 = v[j] := by
        simp only [Nat.add_sub_cancel]
        exact List.getD_eq_getElem v 0 hjv
      have e2 : v.getD (j + 1) 0 = v[j + 1] := List.getD_eq_getElem v 0 h2
      rw [e1, e2]
  · norm_num [compute_fluctuation]
    exact fun h => absurd h (by simp)

/-- C3: compute_relative_change of a non-empty list is the all-zero list of
the same length when the first value is 0 and otherwise maps every value x
to ((x - v[0]) / v[0]) * 100; the two documented examples evaluate as
stated. -/
theorem c3_relative_change_spec :
    (∀ v : List ℚ, v ≠ [] →
      (v.getD 0 0 = 0 → compute_relative_change v = List.replicate v.length 0) ∧
      (v.getD 0 0 ≠ 0 →
        compute_relative_change v =
          v.map (fun x => ((x - v.getD 0 0) / v.getD 0 0) * 100))) ∧
    compute_relative_change [0, 5, 10] = [0, 0, 0] ∧
    compute_relative_change [50, 50, 75, 25] = [0, 0, 50, -50] := by
  refine ⟨?_, by norm_num [compute_relative_change]; exact fun h => absurd h (by simp),
    by norm_num [compute_relative_change]; exact fun h => absurd h (by simp)⟩
  intro v hv
  cases v with
  | nil => exact absurd rfl hv
  | cons x xs =>
    constructor
    · intro h0
      have hx : x = 0 := by simpa using h0
      simp [compute_relative_change, hx, List.map_const', List.replicate_succ]
    · intro h0
      have hx : x ≠ 0 := by simpa using h0
      simp only [List.getD_cons_zero]
      rw [compute_relative_change, if_neg hv]
      simp only [List.headD_cons, if_neg hx]

/-- C10: before the nudge and the padding, the raw fluctuation range of
render_svg always contains zero: every fluctuation series starts with 0 and
the min/max accumulators start at 0. -/
theorem c10_raw_fluct_range_spans_zero (s : PriceSeries)
    (hA : s.abtc ≠ []) (hB : s.btc ≠ []) :
    raw_fluct_min s ≤ 0 ∧ 0 ≤ raw_fluct_max s := by
  constructor
  · unfold raw_fluct_min
    have h1 : min 0 (pymin (compute_fluctuation s.abtc)) ≤ 0 := min_le_left _ _
    have h2 := pymin_fluct_nonpos s.btc hB
    exact le_trans (min_le_min h1 h2) (by simp)
  · unfold raw_fluct_max
    have h1 : 0 ≤ max 0 (pymax (compute_fluctuation s.abtc)) := le_max_left _ _
    have h2 := pymax_fluct_nonneg s.btc hB
    exact le_trans (by simp) (max_le_max h1 h2)

/-- C4: the fluctuation-scale domain of render_svg equals the raw min/max
over both assets' fluctuation series transformed by first the plus-minus-1
nudge (only when the raw extremes coincide) and then the 5 percent padding
of the resulting span; in the coincident case the domain is the raw point
extended by 1.1 on each side, which padding before nudging would not give. -/
theorem c4_fluct_domain_nudge_then_pad (s : PriceSeries)
    (hA : s.abtc ≠ []) (hB : s.btc ≠ []) :
    fluct_bounds s = pad_spec (nudge_spec (raw_fluct_min s, raw_fluct_max s)) ∧
    raw_fluct_min s =
      min (pymin (compute_fluctuation s.abtc)) (pymin (compute_fluctuation s.btc)) ∧
    raw_fluct_max s =
      max (pymax (compute_fluctuation s.abtc)) (pymax (compute_fluctuation s.btc)) ∧
    (raw_fluct_min s = raw_fluct_max s →
      fluct_bounds s = (raw_fluct_min s - 11 / 10, raw_fluct_max s + 11 / 10)) := by
  refine ⟨?_, ?_, ?_, ?_⟩
  · simp only [fluct_bounds, nudge_spec, pad_spec]
    split_ifs with h1 <;> simp_all
  · rw [raw_fluct_min, min_eq_right (pymin_fluct_nonpos s.abtc hA)]
  · rw [raw_fluct_max, max_eq_right (pymax_fluct_nonneg s.abtc hA)]
  · intro h
    simp only [fluct_bounds]
    rw [if_pos h, if_pos h, Prod.mk.injEq]
    constructor <;> (rw [h]; ring)

/-- C6: the left-scale mapping price_y is strictly decreasing on all of ℚ,
in particular on the left-scale domain, including the degenerate case where
the relative-change extremes coincide and the range falls back to 1. -/
theorem c6_price_y_strict_anti (s : PriceSeries)
    (hA : s.abtc ≠ []) (hB : s.btc ≠ [])
    (a b : ℚ) (hab : a < b) : price_y s b < price_y s a := by
  have hR : 0 < rel_range s := rel_range_pos s hA hB
  have hH : (0 : ℚ) < (plot_height : ℚ) := by
    norm_num [plot_height, svg_height, margin_top, margin_bottom]
  have key : (a - rel_min s) / rel_range s * (plot_height : ℚ) <
      (b - rel_min s) / rel_range s * (plot_height : ℚ) := by
    apply mul_lt_mul_of_pos_right _ hH
    exact (div_lt_div_iff_of_pos_right hR).mpr (by linarith)
  simp only [price_y]
  linarith

/-- C7: for every count n at least 1, the set of date-label indices emitted
by render_svg equals the multiples of the stride max(1, n / 5) below n
together with the final index n - 1. -/
theorem c7_x_label_positions (n : ℕ) (hn : 1 ≤ n) :
    (x_label_indices n).toFinset = x_label_set_claim n := by
  by_cases h6 : n < 6
  · interval_cases n <;> decide
  · push_neg at h6
    have hstep : date_label_step n = max 1 (n / 5) := by
      simp only [date_label_step]
      rw [min_eq_left h6]
      norm_num
    have hs1 : 1 ≤ max 1 (n / 5) := le_max_left 1 _
    simp only [x_label_indices, x_label_set_claim, range_by, hstep]
    by_cases hlast : (n - 1) % max 1 (n / 5) = 0
    · rw [if_neg (not_not_intro hlast), List.append_nil]
      ext i
      simp only [List.mem_toFinset, List.mem_filter, List.mem_range,
        Finset.mem_union, Finset.mem_filter, Finset.mem_range,
        Finset.mem_singleton, decide_eq_true_eq]
      constructor
      · exact fun h => Or.inl h
      · rintro (h | rfl)
        · exact h
        · exact ⟨by omega, hlast⟩
    · rw [if_pos hlast]
      ext i
      simp only [List.toFinset_append, List.mem_toFinset, Finset.mem_union,
        List.mem_filter, List.mem_range, List.mem_singleton,
        Finset.mem_filter, Finset.mem_range, Finset.mem_singleton,
        List.toFinset_cons, List.toFinset_nil, insert_emptyc_eq,
        decide_eq_true_eq]

/-- C5: a header missing the date column or either asset column makes
load_price_data fail with a FormatError whatever the data rows contain (so
before any row is read or any value converted), and a valid header with an
empty body fails with the no-rows DataError. -/
theorem c5_load_errors :
    (∀ (fieldnames : List String) (rows : List CsvRow),
      ("date" ∉ fieldnames ∨ "ABTC" ∉ fieldnames ∨ "BTC" ∉ fieldnames) →
      ∃ msg, load_price_data fieldnames rows =
        Except.error (LoadError.formatError msg)) ∧
    (∀ fieldnames : List String,
      "date" ∈ fieldnames → "ABTC" ∈ fieldnames → "BTC" ∈ fieldnames →
      load_price_data fieldnames [] =
        Except.error (LoadError.dataError "No rows found in price CSV")) := by
  constructor
  · intro fieldnames rows h
    by_cases hd : "date" ∈ fieldnames
    · have hmiss : ASSETS.filter (fun a => ¬ a ∈ fieldnames) ≠ [] := by
        rcases h with h | h | h
        · exact absurd hd h
        · intro hc
          have hm : "ABTC" ∈ ASSETS.filter (fun a => ¬ a ∈ fieldnames) := by
            simp [ASSETS, h]
          rw [hc] at hm
          simp at hm
        · intro hc
          have hm : "BTC" ∈ ASSETS.filter (fun a => ¬ a ∈ fieldnames) := by
            simp [ASSETS, h]
          rw [hc] at hm
          simp at hm
      refine ⟨"CSV is missing expected asset columns: " ++
        String.intercalate ", " (ASSETS.filter (fun a => ¬ a ∈ fieldnames)), ?_⟩
      simp only [load_price_data]
      rw [if_neg (not_not_intro hd), if_pos hmiss]
    · refine ⟨"CSV must contain a \x27date\x27 column", ?_⟩
      simp only [load_price_data]
      rw [if_pos hd]
  · intro fieldnames h1 h2 h3
    simp only [load_price_data]
    have hmiss : ASSETS.filter (fun a => ¬ a ∈ fieldnames) = [] := by
      simp [ASSETS, h2, h3]
    rw [if_neg (not_not_intro h1), if_neg (not_not_intro hmiss)]
    rfl

/-- C9: serialization is deterministic: render_svg is a pure function of
the input series, so identical inputs produce byte-identical document
text. -/
theorem c9_render_deterministic (s t : PriceSeries) (h : s = t) :
    render_svg s = render_svg t := by
  rw [h]

/-- C8 counterexample: at the value 1000 the code formats with no decimals
("$1,000") while the claimed strictly-greater-than-1000 rule prescribes the
two-decimal format ("$1,000.00"). -/
theorem c8_counterexample :
    _format_currency 1000 ≠ currency_format_claim 1000 := by
  have hv0 : ((1000 : ℚ) * 10 ^ (0 : ℕ)) = 1000 := by norm_num
  have hv2 : ((1000 : ℚ) * 10 ^ (2 : ℕ)) = 100000 := by norm_num
  have hf1 : Rat.floor (1000 : ℚ) = 1000 := rfl
  have hf2 : Rat.floor (100000 : ℚ) = 100000 := rfl
  have hr0 : round_half_even ((1000 : ℚ) * 10 ^ (0 : ℕ)) = 1000 := by
    rw [hv0]
    simp only [round_half_even, hf1]
    norm_num
  have hr2 : round_half_even ((1000 : ℚ) * 10 ^ (2 : ℕ)) = 100000 := by
    rw [hv2]
    simp only [round_half_even, hf2]
    norm_num
  have h0 : format_comma_fixed 1000 0 = "1,000" := by
    simp only [format_comma_fixed, hr0]
    rw [if_neg (by norm_num : ¬ (1000 : ℚ) < 0)]
    decide
  have h2 : format_comma_fixed 1000 2 = "1,000.00" := by
    simp only [format_comma_fixed, hr2]
    rw [if_neg (by norm_num : ¬ (1000 : ℚ) < 0)]
    decide
  have hcode : _format_currency 1000 = "$" ++ format_comma_fixed 1000 0 := by
    rw [_format_currency, if_pos (Or.inl (by norm_num : (1000 : ℚ) ≤ 1000))]
  have hclaim : currency_format_claim 1000 = "$" ++ format_comma_fixed 1000 2 := by
    rw [currency_format_claim, if_neg (by norm_num : ¬ (1000 : ℚ) < |(1000 : ℚ)|)]
  rw [hcode, hclaim, h0, h2]
  decide

/-- C8 amended: _format_currency uses the no-decimal thousands format
exactly when the absolute value is at least 1000 (the code's threshold is
inclusive), and the two-decimal format otherwise. -/
theorem c8_currency_threshold_inclusive (v : ℚ) :
    _format_currency v =
      if 1000 ≤ |v| then "$" ++ format_comma_fixed v 0
      else "$" ++ format_comma_fixed v 2 := by
  have hiff : (1000 ≤ v ∨ v ≤ -1000) ↔ 1000 ≤ |v| := by
    rw [le_abs]
    constructor
    · rintro (h | h)
      · exact Or.inl h
      · exact Or.inr (by linarith)
    · rintro (h | h)
      · exact Or.inl h
      · exact Or.inr (by linarith)
  rw [_format_currency]
  simp only [hiff]

/-- Witness for C2 at the concrete list [100, 100, 50, 0, 10]. -/
theorem c2_fluctuation_spec_witness :
    (compute_fluctuation [100, 100, 50, 0, 10]).length = 5 :=
  (c2_fluctuation_spec.1 [100, 100, 50, 0, 10] (by simp)).1

/-- Witness for C3 at the concrete list [50, 50, 75, 25]. -/
theorem c3_relative_change_spec_witness :
    compute_relative_change [50, 50, 75, 25] =
      [50, 50, 75, 25].map (fun x : ℚ =>
        ((x - [(50 : ℚ), 50, 75, 25].getD 0 0) / [(50 : ℚ), 50, 75, 25].getD 0 0) * 100) :=
  (c3_relative_change_spec.1 [50, 50, 75, 25] (by simp)).2
    (by norm_num [List.getD_cons_zero])

/-- Witness for C4 at a one-row series with coincident fluctuation extremes. -/
theorem c4_fluct_domain_witness :
    fluct_bounds ⟨["2024-01-01"], [5], [5]⟩ =
      pad_spec (nudge_spec (raw_fluct_min ⟨["2024-01-01"], [5], [5]⟩,
        raw_fluct_max ⟨["2024-01-01"], [5], [5]⟩)) :=
  (c4_fluct_domain_nudge_then_pad ⟨["2024-01-01"], [5], [5]⟩ (by simp) (by simp)).1

/-- Witness for C5: a header without the required columns and a valid
header with an empty body. -/
theorem c5_load_errors_witness :
    (∃ msg, load_price_data ["x"] [] =
      Except.error (LoadError.formatError msg)) ∧
    load_price_data ["date", "ABTC", "BTC"] [] =
      Except.error (LoadError.dataError "No rows found in price CSV") :=
  ⟨c5_load_errors.1 ["x"] [] (Or.inl (by decide)),
   c5_load_errors.2 ["date", "ABTC", "BTC"] (by decide) (by decide) (by decide)⟩

/-- Witness for C6 at a concrete series and the pair 0 < 1. -/
theorem c6_price_y_witness :
    price_y ⟨["2024-01-01"], [1], [2]⟩ 1 < price_y ⟨["2024-01-01"], [1], [2]⟩ 0 :=
  c6_price_y_strict_anti ⟨["2024-01-01"], [1], [2]⟩ (by simp) (by simp) 0 1 (by norm_num)

/-- Witness for C7 at n = 10. -/
theorem c7_x_label_witness : (x_label_indices 10).toFinset = x_label_set_claim 10 :=
  c7_x_label_positions 10 (by norm_num)

/-- Witness for C9 at a concrete series. -/
theorem c9_render_witness :
    render_svg ⟨["2024-01-01"], [1], [2]⟩ = render_svg ⟨["2024-01-01"], [1], [2]⟩ :=
  c9_render_deterministic ⟨["2024-01-01"], [1], [2]⟩ ⟨["2024-01-01"], [1], [2]⟩ rfl

/-- Witness for C10 at a concrete series. -/
theorem c10_raw_fluct_witness :
    raw_fluct_min ⟨["2024-01-01"], [3], [4]⟩ ≤ 0 ∧
      0 ≤ raw_fluct_max ⟨["2024-01-01"], [3], [4]⟩ :=
  c10_raw_fluct_range_spans_zero ⟨["2024-01-01"], [3], [4]⟩ (by simp) (by simp)
